import Mathlib

/-!
Shallow embedding of the TopicVideoLearning matching / session / signaling core.

The embedding follows the backend source:
- `backend/models/WaitingPool.js`, `backend/models/Topic.js`, the Session model
  (schema fields that the modelled handlers touch);
- `backend/routes/topics.js` (the matching router: POST /matching/join,
  POST /matching/leave, POST /matching/cancel);
- `backend/routes/sessions.js` (PATCH /sessions/:id/end);
- `backend/socket/socketHandler.js` (connection registry, relay handlers,
  disconnect handler).

MongoDB collections are modelled as Lean lists in natural (insertion) order:
an insert (`new Model(...).save()`) appends, `deleteOne`/`deleteMany` filter,
`findOne` without a sort clause returns the first matching element in list
order, and `findByIdAndUpdate` / `save` of an updated document map over the
list.  Object ids, user ids, topic ids, session ids and room ids are `Nat`;
socket ids are `String` (the join route stores a `'temp-' + Date.now()`
placeholder string when the client supplies none).  Document fields that no
modelled handler reads or writes (feedback, duration, agora connection
details, timestamps other than `joinedAt`/`endTime`) are omitted.
-/

namespace TopicVideoLearning

/-- Status of a Session: the `status` enum of the Session schema,
`['waiting', 'active', 'completed', 'cancelled']`. -/
inductive SessionStatus where
  | waiting
  | active
  | completed
  | cancelled
deriving DecidableEq, Repr

/-- One document of the WaitingPool collection (`backend/models/WaitingPool.js`):
user, topic, enqueue time `joinedAt`, recorded `socketId`, liveness flag
`isActive` (default `true`).  `id` is the Mongo `_id`. -/
structure WaitingEntry where
  id : Nat
  user : Nat
  topic : Nat
  joinedAt : Nat
  socketId : String
  isActive : Bool
deriving DecidableEq, Repr

/-- One document of the Session collection: topic, the two participants
`user1`/`user2`, the `roomId` used to scope socket rooms, the status, and
`endTime` (set on end/cancel).  `id` is the Mongo `_id`. -/
structure Session where
  id : Nat
  topic : Nat
  user1 : Nat
  user2 : Nat
  roomId : Nat
  status : SessionStatus
  endTime : Option Nat
deriving DecidableEq, Repr

/-- One document of the Topic collection, restricted to the fields the
modelled handlers read or write: `isActive` and `sessionsCount`. -/
structure TopicRec where
  id : Nat
  isActive : Bool
  sessionsCount : Nat
deriving DecidableEq, Repr

/-- One document of the User collection, restricted to the
`sessionsCompleted` counter incremented by the end-session handler. -/
structure UserRec where
  id : Nat
  sessionsCompleted : Nat
deriving DecidableEq, Repr

/-- The persistent state the modelled routes touch: the four collections. -/
structure DB where
  pool : List WaitingEntry
  sessions : List Session
  topics : List TopicRec
  users : List UserRec
deriving DecidableEq, Repr

/-- `Topic.findById(topicId)`. -/
def findTopic (db : DB) (tid : Nat) : Option TopicRec :=
  db.topics.find? (fun t => t.id == tid)

/-- A session status counts as non-terminal when it is in
`{ $in: ['waiting', 'active'] }`, the filter used by the active-session
conflict check of POST /matching/join. -/
def isNonTerminal (s : SessionStatus) : Bool :=
  s == SessionStatus.waiting || s == SessionStatus.active

/-- A session status is terminal when it is `'completed'` or `'cancelled'`,
the guard used by the end and cancel handlers. -/
def isTerminal (s : SessionStatus) : Bool :=
  s == SessionStatus.completed || s == SessionStatus.cancelled

/-- `session.user1.equals(userId) || session.user2.equals(userId)`. -/
def isParticipant (s : Session) (uid : Nat) : Bool :=
  s.user1 == uid || s.user2 == uid

/-- The distinct rejections POST /matching/join can produce before the pool
operation: 404 'Topic not found', 400 'Already in waiting pool for this
topic', 400 'Cannot join while in an active session'. -/
inductive JoinReject where
  | topicNotFound
  | alreadyWaiting
  | activeSessionConflict
deriving DecidableEq, Repr

/-- The checks POST /matching/join runs, in source order, before any pool or
session mutation: topic existence/activity, the duplicate WaitingPool entry
check (`WaitingPool.findOne({user, topic, isActive: true})`), and the
non-terminal session check
(`Session.findOne({$or: [{user1}, {user2}], status: {$in: ['waiting','active']}})`). -/
def joinCheck (db : DB) (uid tid : Nat) : Option JoinReject :=
  match findTopic db tid with
  | none => some JoinReject.topicNotFound
  | some t =>
    if !t.isActive then some JoinReject.topicNotFound
    else if (db.pool.find? fun e => e.user == uid && e.topic == tid && e.isActive).isSome then
      some JoinReject.alreadyWaiting
    else if (db.sessions.find? fun s =>
        (s.user1 == uid || s.user2 == uid) && isNonTerminal s.status).isSome then
      some JoinReject.activeSessionConflict
    else none

/-- The filter of the partner lookup
`WaitingPool.findOne({topic: topicId, user: {$ne: userId}, isActive: true})`. -/
def partnerPred (uid tid : Nat) (e : WaitingEntry) : Bool :=
  e.topic == tid && e.user != uid && e.isActive

/-- The partner lookup itself.  The query has no sort clause, so it yields
the first matching document in natural (list) order. -/
def findPartner (db : DB) (uid tid : Nat) : Option WaitingEntry :=
  db.pool.find? (partnerPred uid tid)

/-- Commit of the matched branch of POST /matching/join: save a new Session
with `user1 := partner.user`, `user2 := requester`, `status: 'active'`, then
`WaitingPool.deleteOne({_id: waitingUser._id})`. -/
def commitMatch (db : DB) (uid tid : Nat) (partner : WaitingEntry) (sid rid : Nat) : DB :=
  { db with
    sessions := db.sessions ++
      [{ id := sid, topic := tid, user1 := partner.user, user2 := uid,
         roomId := rid, status := SessionStatus.active, endTime := none }],
    pool := db.pool.filter fun e => e.id != partner.id }

/-- Commit of the no-match branch: save a new WaitingEntry for the requester
(`socketId: req.body.socketId || 'temp-' + Date.now()`, `isActive` defaults
to `true`, `joinedAt` defaults to now). -/
def commitEnqueue (db : DB) (uid tid : Nat) (sockId : String) (eid now : Nat) : DB :=
  { db with
    pool := db.pool ++
      [{ id := eid, user := uid, topic := tid, joinedAt := now,
         socketId := sockId, isActive := true }] }

/-- Outcome of POST /matching/join: a rejection, `matched: true` with the
partner and the new session id, or `matched: false` with the new waiting
pool entry id. -/
inductive JoinOutcome where
  | rejected (r : JoinReject)
  | matched (partnerUser sid : Nat)
  | enqueued (eid : Nat)
deriving DecidableEq, Repr

/-- The POST /matching/join handler run as one sequential step: the checks,
then the partner lookup, then the matched or enqueue commit.  `sid`, `rid`,
`eid` are the fresh session id, room uuid, and entry id. -/
def matchingJoin (db : DB) (uid tid : Nat) (sockId : String) (sid rid eid now : Nat) :
    JoinOutcome × DB :=
  match joinCheck db uid tid with
  | some r => (JoinOutcome.rejected r, db)
  | none =>
    match findPartner db uid tid with
    | some partner => (JoinOutcome.matched partner.user sid, commitMatch db uid tid partner sid rid)
    | none => (JoinOutcome.enqueued eid, commitEnqueue db uid tid sockId eid now)

/-- First phase of the handler as it actually executes over `await`
boundaries: the checks and the partner `findOne` read a snapshot of the
database; `none` means the request was rejected, `some f` carries the
partner lookup result. -/
def joinPhase1 (db : DB) (uid tid : Nat) : Option (Option WaitingEntry) :=
  match joinCheck db uid tid with
  | some _ => none
  | none => some (findPartner db uid tid)

/-- Second phase: the writes (session save + `deleteOne`, or the enqueue
save), applied to whatever the database has become in the meantime. -/
def joinPhase2 (db : DB) (uid tid : Nat) (found : Option WaitingEntry) (sockId : String)
    (sid rid eid now : Nat) : JoinOutcome × DB :=
  match found with
  | some partner => (JoinOutcome.matched partner.user sid, commitMatch db uid tid partner sid rid)
  | none => (JoinOutcome.enqueued eid, commitEnqueue db uid tid sockId eid now)

/-- An interleaved execution of two concurrent POST /matching/join requests
on the same topic in which both read phases complete before either write
phase runs — a schedule the handler permits because each database call is a
separate `await`.  Returns `none` when either request is rejected by its
checks. -/
def racedJoin (db : DB) (u1 u2 tid : Nat) (sock1 sock2 : String)
    (sid1 rid1 eid1 sid2 rid2 eid2 now : Nat) : Option (JoinOutcome × JoinOutcome × DB) :=
  match joinPhase1 db u1 tid, joinPhase1 db u2 tid with
  | some f1, some f2 =>
    let r1 := joinPhase2 db u1 tid f1 sock1 sid1 rid1 eid1 now
    let r2 := joinPhase2 r1.2 u2 tid f2 sock2 sid2 rid2 eid2 now
    some (r1.1, r2.1, r2.2)
  | _, _ => none

/-- Result of PATCH /sessions/:id/end and of the session branch of
POST /matching/cancel: 404, 403 access denied, 400 'Session already ended',
or success. -/
inductive EndResult where
  | notFound
  | accessDenied
  | alreadyEnded
  | ended
deriving DecidableEq, Repr

/-- `User.findByIdAndUpdate(uid, {$inc: {sessionsCompleted: 1}})`: a no-op
when no user document has that id. -/
def incUser (users : List UserRec) (uid : Nat) : List UserRec :=
  users.map fun u =>
    if u.id == uid then { u with sessionsCompleted := u.sessionsCompleted + 1 } else u

/-- `Topic.findByIdAndUpdate(tid, {$inc: {sessionsCount: 1}})`. -/
def incTopic (topics : List TopicRec) (tid : Nat) : List TopicRec :=
  topics.map fun t =>
    if t.id == tid then { t with sessionsCount := t.sessionsCount + 1 } else t

/-- `session.status = st; session.endTime = new Date(); await session.save()`
for the session with id `sid`. -/
def setSession (sessions : List Session) (sid : Nat) (st : SessionStatus) (now : Nat) :
    List Session :=
  sessions.map fun s =>
    if s.id == sid then { s with status := st, endTime := some now } else s

/-- The PATCH /sessions/:id/end handler: find the session, participant
check, reject `'completed'`/`'cancelled'` sessions as already ended, else
mark completed with `endTime`, increment both participants'
`sessionsCompleted` and the topic's `sessionsCount`. -/
def endSession (db : DB) (sid uid now : Nat) : EndResult × DB :=
  match db.sessions.find? fun s => s.id == sid with
  | none => (EndResult.notFound, db)
  | some s =>
    if !isParticipant s uid then (EndResult.accessDenied, db)
    else if isTerminal s.status then (EndResult.alreadyEnded, db)
    else
      (EndResult.ended,
       { db with
         sessions := setSession db.sessions sid SessionStatus.completed now,
         users := incUser (incUser db.users s.user1) s.user2,
         topics := incTopic db.topics s.topic })

/-- The session branch of POST /matching/cancel: same find / participant /
already-ended guards, then mark cancelled with `endTime`; no counters are
updated. -/
def cancelSession (db : DB) (sid uid now : Nat) : EndResult × DB :=
  match db.sessions.find? fun s => s.id == sid with
  | none => (EndResult.notFound, db)
  | some s =>
    if !isParticipant s uid then (EndResult.accessDenied, db)
    else if isTerminal s.status then (EndResult.alreadyEnded, db)
    else
      (EndResult.ended,
       { db with sessions := setSession db.sessions sid SessionStatus.cancelled now })

/-- The `activeConnections` map of `socketHandler.js`, as an association
list from user id to the stored socket id (the other stored fields — the
user document and `connectedAt` — play no role in the modelled behavior). -/
abbrev ConnMap := List (Nat × String)

/-- `activeConnections.set(socket.userId, {socketId: socket.id, ...})` on
connection: overwrites any previous mapping for the same user. -/
def connRegister (conns : ConnMap) (uid : Nat) (sockId : String) : ConnMap :=
  (uid, sockId) :: conns.filter fun p => p.1 != uid

/-- `activeConnections.get(uid)`, projected to the stored socket id. -/
def connLookup (conns : ConnMap) (uid : Nat) : Option String :=
  (conns.find? fun p => p.1 == uid).map (·.2)

/-- `activeConnections.delete(socket.userId)` as run by the disconnect
handler: keyed by the user id alone, with no comparison of the stored
socket id against the disconnecting socket's id. -/
def connDisconnectDelete (conns : ConnMap) (uid : Nat) : ConnMap :=
  conns.filter fun p => p.1 != uid

/-- A socket emission produced by the disconnect handler. -/
structure Event where
  kind : String
  roomId : Nat
  fromUser : Nat
deriving DecidableEq, Repr

/-- The `disconnect` handler of `socketHandler.js`: delete the registry
entry for the user id, `WaitingPool.deleteMany({user: socket.userId,
socketId: socket.id})`, and for every session of the user with
`status: 'active'` emit `participantDisconnected` to its room; no session
document is modified. -/
def socketDisconnect (db : DB) (conns : ConnMap) (uid : Nat) (sockId : String) :
    DB × ConnMap × List Event :=
  ({ db with pool := db.pool.filter fun e => !(e.user == uid && e.socketId == sockId) },
   connDisconnectDelete conns uid,
   (db.sessions.filter fun s => isParticipant s uid && s.status == SessionStatus.active).map
     fun s => { kind := "participantDisconnected", roomId := s.roomId, fromUser := uid })

/-- What a relay handler does with one inbound event: forward it to the
room (tagged with the sender), or refuse.  No handler in the source
produces `denied`; the constructor exists so the absence is a statement. -/
inductive RelayOutcome where
  | forwarded (kind : String) (roomId fromUser : Nat) (payload : String)
  | denied
deriving DecidableEq, Repr

/-- `socket.on('offer', ...)`: `socket.to(roomId).emit('offer', {offer, from})`
with no membership or participant check. -/
def offerHandler (uid rid : Nat) (payload : String) : RelayOutcome :=
  RelayOutcome.forwarded "offer" rid uid payload

/-- `socket.on('answer', ...)`: unconditional forward, as for offer. -/
def answerHandler (uid rid : Nat) (payload : String) : RelayOutcome :=
  RelayOutcome.forwarded "answer" rid uid payload

/-- `socket.on('ice-candidate', ...)`: unconditional forward. -/
def iceCandidateHandler (uid rid : Nat) (payload : String) : RelayOutcome :=
  RelayOutcome.forwarded "ice-candidate" rid uid payload

/-- `socket.on('sessionMessage', ...)`: unconditional forward. -/
def sessionMessageHandler (uid rid : Nat) (payload : String) : RelayOutcome :=
  RelayOutcome.forwarded "sessionMessage" rid uid payload

/-- `socket.on('typing', ...)`: unconditional forward. -/
def typingHandler (uid rid : Nat) (payload : String) : RelayOutcome :=
  RelayOutcome.forwarded "typing" rid uid payload

/-- Result of the `joinSession` socket handler. -/
inductive JoinSessionResult where
  | notFound
  | denied
  | joined (rid : Nat)
deriving DecidableEq, Repr

/-- `socket.on('joinSession', ...)`: looks the session up, rejects a
non-participant with 'Access denied to session', otherwise joins the
client-supplied room id. -/
def joinSessionHandler (db : DB) (uid sid rid : Nat) : JoinSessionResult :=
  match db.sessions.find? fun s => s.id == sid with
  | none => JoinSessionResult.notFound
  | some s =>
    if !isParticipant s uid then JoinSessionResult.denied
    else JoinSessionResult.joined rid

/-- The `sessionsCompleted` field of the user document with id `uid`, when
that user exists. -/
def userCompleted (db : DB) (uid : Nat) : Option Nat :=
  (db.users.find? fun u => u.id == uid).map (·.sessionsCompleted)

/-- The `sessionsCount` field of the topic document with id `tid`, when
that topic exists. -/
def topicSessions (db : DB) (tid : Nat) : Option Nat :=
  (db.topics.find? fun t => t.id == tid).map (·.sessionsCount)

/-- An active topic with id 5, used as concrete input below. -/
def topic5 : TopicRec := { id := 5, isActive := true, sessionsCount := 0 }

/-- A database holding only topic 5: no waiters, no sessions. -/
def baseDB : DB := { pool := [], sessions := [], topics := [topic5], users := [] }

/-- User 100's waiting entry on topic 5, the single waiter of the
double-match scenario. -/
def raceEntry : WaitingEntry :=
  { id := 1, user := 100, topic := 5, joinedAt := 0, socketId := "sA", isActive := true }

/-- Concrete state with one waiter (user 100) on topic 5, into which users
200 and 300 send concurrent join requests. -/
def raceDB : DB :=
  { pool := [raceEntry], sessions := [], topics := [topic5],
    users := [{ id := 100, sessionsCompleted := 0 }, { id := 200, sessionsCompleted := 0 },
              { id := 300, sessionsCompleted := 0 }] }

/-- The state the interleaved double-join leaves behind: the single waiter
consumed, and two active sessions both containing user 100. -/
def raceAfterDB : DB :=
  { pool := [], sessions :=
      [{ id := 10, topic := 5, user1 := 100, user2 := 200, roomId := 11,
         status := SessionStatus.active, endTime := none },
       { id := 20, topic := 5, user1 := 100, user2 := 300, roomId := 21,
         status := SessionStatus.active, endTime := none }],
    topics := [topic5],
    users := [{ id := 100, sessionsCompleted := 0 }, { id := 200, sessionsCompleted := 0 },
              { id := 300, sessionsCompleted := 0 }] }

/-- Registry state after user 1 connects with socket "s1" and then
reconnects with socket "s2". -/
def c7conns : ConnMap := connRegister (connRegister [] 1 "s1") 1 "s2"

/-- The older of two waiters on topic 5. -/
def entryOld : WaitingEntry :=
  { id := 1, user := 100, topic := 5, joinedAt := 3, socketId := "x", isActive := true }

/-- The newer of two waiters on topic 5. -/
def entryNew : WaitingEntry :=
  { id := 2, user := 101, topic := 5, joinedAt := 7, socketId := "y", isActive := true }

/-- A pool with two waiters on topic 5 in enqueue order, used to exercise
the oldest-first selection. -/
def sortedPoolDB : DB :=
  { pool := [entryOld, entryNew], sessions := [], topics := [topic5], users := [] }

/-- A state in which user 7 already waits on topic 5. -/
def waitingConflictDB : DB :=
  { pool := [{ id := 1, user := 7, topic := 5, joinedAt := 0, socketId := "s", isActive := true }],
    sessions := [], topics := [topic5], users := [] }

/-- A state in which user 7 already has an active session. -/
def sessionConflictDB : DB :=
  { pool := [],
    sessions := [{ id := 1, topic := 5, user1 := 7, user2 := 8, roomId := 70,
                   status := SessionStatus.active, endTime := none }],
    topics := [topic5], users := [] }

/-- A database with one active session (id 9) between users 100 and 200 on
topic 5, with both user documents and the topic document present. -/
def sessDB : DB :=
  { pool := [],
    sessions := [{ id := 9, topic := 5, user1 := 100, user2 := 200, roomId := 77,
                   status := SessionStatus.active, endTime := none }],
    topics := [{ id := 5, isActive := true, sessionsCount := 4 }],
    users := [{ id := 100, sessionsCompleted := 2 }, { id := 200, sessionsCompleted := 0 }] }

/-- A pool holding user 7's entry created over HTTP with a placeholder
socket id that was never refreshed by `joinWaitingPool`. -/
def placeholderEntry : WaitingEntry :=
  { id := 3, user := 7, topic := 5, joinedAt := 1, socketId := "temp-1700000000", isActive := true }

/-- Database whose pool holds only the placeholder entry. -/
def placeholderDB : DB :=
  { pool := [placeholderEntry], sessions := [], topics := [topic5], users := [] }

/-- Filtering by `p` does not disturb a `find?` whose candidates all
satisfy `p`. -/
lemma find?_filter_comm {α : Type} (l : List α) (p q : α → Bool)
    (h : ∀ a, q a = true → p a = true) : (l.filter p).find? q = l.find? q := by
  induction l with
  | nil => rfl
  | cons a t ih =>
    by_cases hpa : p a = true
    · rw [List.filter_cons_of_pos hpa]
      by_cases hqa : q a = true
      · rw [List.find?_cons_of_pos _ hqa, List.find?_cons_of_pos _ hqa]
      · rw [List.find?_cons_of_neg _ hqa, List.find?_cons_of_neg _ hqa, ih]
    · rw [List.filter_cons_of_neg hpa, ih, List.find?_cons_of_neg _ fun hq => hpa (h a hq)]

/-- Claim C2.  The enqueue-or-match operation is not a critical section:
each database call of POST /matching/join is a separate `await`, so two
concurrent joiners can both run the partner `findOne` before either runs
`deleteOne`.  On the concrete state with one waiter (user 100) and
concurrent joins by users 200 and 300, the interleaving in which both read
phases precede both write phases hands user 100's single WaitingEntry to
both requesters: both receive `Matched`, and two active sessions are
created from one waiting entry. -/
theorem raced_join_double_match :
    racedJoin raceDB 200 300 5 "sB" "sC" 10 11 12 20 21 22 99 =
      some (JoinOutcome.matched 100 10, JoinOutcome.matched 100 20, raceAfterDB) ∧
    raceDB.pool = [raceEntry] ∧
    raceAfterDB.sessions.length = 2 ∧
    (∀ s ∈ raceAfterDB.sessions, s.user1 = 100 ∧ s.status = SessionStatus.active) := by
  refine ⟨rfl, rfl, rfl, ?_⟩
  decide

/-- Claim C7, counterexample.  The disconnect handler runs
`activeConnections.delete(socket.userId)` without comparing the stored
socket id to the disconnecting socket's id: after user 1 connects with
"s1" and reconnects with "s2", a stale disconnect carrying "s1" removes
the newer "s2" registration, although the stored handle differs from the
disconnecting one. -/
theorem stale_disconnect_counterexample :
    connLookup c7conns 1 = some "s2" ∧ "s2" ≠ "s1" ∧
    connLookup (socketDisconnect baseDB c7conns 1 "s1").2.1 1 = none := by
  refine ⟨rfl, ?_, rfl⟩
  decide

/-- Claim C7, amended.  Disconnect cleanup removes the identity's registry
entry unconditionally — whatever socket id is stored and whatever socket id
disconnects — while entries of other identities are untouched. -/
theorem disconnect_delete_unconditional (db : DB) (conns : ConnMap) (uid : Nat)
    (sock : String) :
    connLookup (socketDisconnect db conns uid sock).2.1 uid = none ∧
    ∀ uid', uid' ≠ uid →
      connLookup (socketDisconnect db conns uid sock).2.1 uid' = connLookup conns uid' := by
  constructor
  · simp only [socketDisconnect, connDisconnectDelete, connLookup]
    rw [List.find?_eq_none.mpr]
    · rfl
    · intro p hp
      have := (List.mem_filter.mp hp).2
      simp_all
  · intro uid' h
    show connLookup (conns.filter fun p => p.1 != uid) uid' = connLookup conns uid'
    unfold connLookup
    rw [find?_filter_comm]
    intro a ha
    simp only [beq_iff_eq] at ha
    simp [ha, h]

/-- Witness for the amended C7 statement at a concrete input. -/
theorem disconnect_delete_unconditional_witness :
    connLookup (socketDisconnect baseDB [(1, "s2"), (4, "s9")] 1 "s1").2.1 1 = none ∧
    connLookup (socketDisconnect baseDB [(1, "s2"), (4, "s9")] 1 "s1").2.1 4 =
      connLookup [(1, "s2"), (4, "s9")] 4 :=
  ⟨(disconnect_delete_unconditional baseDB [(1, "s2"), (4, "s9")] 1 "s1").1,
   (disconnect_delete_unconditional baseDB [(1, "s2"), (4, "s9")] 1 "s1").2 4 (by decide)⟩

/-- Claim C8.  The five relay handlers forward every inbound event to the
named room tagged with the sender, for every sender and every room — there
is no membership or participant check and no access-denied outcome — while
the joinSession handler does reject a non-participant of the session. -/
theorem relay_no_access_check :
    (∀ uid rid : Nat, ∀ payload : String,
      offerHandler uid rid payload = RelayOutcome.forwarded "offer" rid uid payload ∧
      answerHandler uid rid payload = RelayOutcome.forwarded "answer" rid uid payload ∧
      iceCandidateHandler uid rid payload =
        RelayOutcome.forwarded "ice-candidate" rid uid payload ∧
      sessionMessageHandler uid rid payload =
        RelayOutcome.forwarded "sessionMessage" rid uid payload ∧
      typingHandler uid rid payload = RelayOutcome.forwarded "typing" rid uid payload ∧
      offerHandler uid rid payload ≠ RelayOutcome.denied ∧
      answerHandler uid rid payload ≠ RelayOutcome.denied ∧
      iceCandidateHandler uid rid payload ≠ RelayOutcome.denied ∧
      sessionMessageHandler uid rid payload ≠ RelayOutcome.denied ∧
      typingHandler uid rid payload ≠ RelayOutcome.denied) ∧
    (∀ db : DB, ∀ uid sid rid : Nat, ∀ s : Session,
      db.sessions.find? (fun x => x.id == sid) = some s → isParticipant s uid = false →
      joinSessionHandler db uid sid rid = JoinSessionResult.denied) := by
  constructor
  · intro uid rid payload
    refine ⟨rfl, rfl, rfl, rfl, rfl, ?_, ?_, ?_, ?_, ?_⟩ <;> simp [offerHandler,
      answerHandler, iceCandidateHandler, sessionMessageHandler, typingHandler]
  · intro db uid sid rid s hf hp
    simp [joinSessionHandler, hf, hp]

/-- Witness for C8: user 7 is not a participant of session 9, relays for it
are forwarded anyway, and only joinSession denies it. -/
theorem relay_no_access_check_witness :
    offerHandler 7 77 "sdp" = RelayOutcome.forwarded "offer" 77 7 "sdp" ∧
    joinSessionHandler sessDB 7 9 77 = JoinSessionResult.denied :=
  ⟨(relay_no_access_check.1 7 77 "sdp").1,
   relay_no_access_check.2 sessDB 7 9 77
     { id := 9, topic := 5, user1 := 100, user2 := 200, roomId := 77,
       status := SessionStatus.active, endTime := none } rfl (by decide)⟩

/-- Claim C9.  Disconnect of user `uid` on socket `sock` deletes from the
waiting pool exactly the entries recorded for that user under that socket
id: an entry of `db.pool` survives iff it is not such an entry, and the
resulting pool contains nothing that was not already in `db.pool`.  In
particular an entry whose recorded handle is a never-refreshed placeholder
is left in the pool. -/
theorem disconnect_pool_exact (db : DB) (conns : ConnMap) (uid : Nat) (sock : String) :
    (∀ e ∈ db.pool,
      (e ∈ (socketDisconnect db conns uid sock).1.pool ↔
        ¬(e.user = uid ∧ e.socketId = sock))) ∧
    (∀ e ∈ (socketDisconnect db conns uid sock).1.pool, e ∈ db.pool) := by
  constructor
  · intro e he
    simp [socketDisconnect, List.mem_filter, he]
    tauto
  · intro e he
    exact (List.mem_filter.mp he).1

/-- Witness for C9: user 7's entry with placeholder socket id
"temp-1700000000" survives user 7's disconnect on socket "realSock". -/
theorem disconnect_pool_exact_witness :
    placeholderEntry ∈ (socketDisconnect placeholderDB [] 7 "realSock").1.pool :=
  ((disconnect_pool_exact placeholderDB [] 7 "realSock").1 placeholderEntry
    (by decide)).mpr (by decide)

/-- A `find?` keyed on an id commutes with a map that preserves that id. -/
lemma find?_map_preserve {α : Type} (f : α → α) (key : α → Nat)
    (hf : ∀ a, key (f a) = key a) (l : List α) (k : Nat) :
    (l.map f).find? (fun x => key x == k) = (l.find? fun x => key x == k).map f := by
  rw [List.find?_map]
  have hpred : ((fun x => key x == k) ∘ f) = fun x => key x == k :=
    funext fun x => by simp [Function.comp, hf]
  rw [hpred]

/-- `findByIdAndUpdate` with `$inc` leaves other users' documents alone. -/
lemma incUser_find?_ne (users : List UserRec) (uid k : Nat) (h : k ≠ uid) :
    ((incUser users uid).find? fun u => u.id == k) = users.find? fun u => u.id == k := by
  unfold incUser
  rw [find?_map_preserve _ UserRec.id (fun a => by by_cases ha : a.id = uid <;> simp [ha])]
  cases hfind : users.find? fun u => u.id == k with
  | none => rfl
  | some u =>
    have : u.id = k := by simpa using List.find?_some hfind
    simp [this, h]

/-- `findByIdAndUpdate` with `$inc` bumps the selected user's counter. -/
lemma incUser_find?_same (users : List UserRec) (uid : Nat) :
    ((incUser users uid).find? fun u => u.id == uid) =
      (users.find? fun u => u.id == uid).map
        fun u => { u with sessionsCompleted := u.sessionsCompleted + 1 } := by
  unfold incUser
  rw [find?_map_preserve _ UserRec.id (fun a => by by_cases ha : a.id = uid <;> simp [ha])]
  cases hfind : users.find? fun u => u.id == uid with
  | none => rfl
  | some u =>
    have : u.id = uid := by simpa using List.find?_some hfind
    simp [this]

/-- The topic counter update, on the selected topic. -/
lemma incTopic_find?_same (topics : List TopicRec) (tid : Nat) :
    ((incTopic topics tid).find? fun t => t.id == tid) =
      (topics.find? fun t => t.id == tid).map
        fun t => { t with sessionsCount := t.sessionsCount + 1 } := by
  unfold incTopic
  rw [find?_map_preserve _ TopicRec.id (fun a => by by_cases ha : a.id = tid <;> simp [ha])]
  cases hfind : topics.find? fun t => t.id == tid with
  | none => rfl
  | some t =>
    have : t.id = tid := by simpa using List.find?_some hfind
    simp [this]

/-- Looking the session up again after `setSession` yields the updated
document. -/
lemma setSession_find?_same (sessions : List Session) (sid : Nat) (st : SessionStatus)
    (now : Nat) :
    ((setSession sessions sid st now).find? fun x => x.id == sid) =
      (sessions.find? fun x => x.id == sid).map
        fun s => { s with status := st, endTime := some now } := by
  unfold setSession
  rw [find?_map_preserve _ Session.id (fun a => by by_cases ha : a.id = sid <;> simp [ha])]
  cases hfind : sessions.find? fun x => x.id == sid with
  | none => rfl
  | some s =>
    have : s.id = sid := by simpa using List.find?_some hfind
    simp [this]

/-- Claim C6.  The disconnect handler leaves every session document — in
particular every status — untouched; it only emits
`participantDisconnected` events, exactly one per active session of the
disconnecting user, each addressed to that session's room. -/
theorem disconnect_preserves_sessions (db : DB) (conns : ConnMap) (uid : Nat)
    (sock : String) :
    (socketDisconnect db conns uid sock).1.sessions = db.sessions ∧
    (∀ s ∈ db.sessions, s.status = SessionStatus.active → isParticipant s uid = true →
      ({ kind := "participantDisconnected", roomId := s.roomId, fromUser := uid } : Event) ∈
        (socketDisconnect db conns uid sock).2.2) ∧
    (∀ ev ∈ (socketDisconnect db conns uid sock).2.2,
      ev.kind = "participantDisconnected" ∧ ev.fromUser = uid ∧
      ∃ s ∈ db.sessions, s.status = SessionStatus.active ∧ isParticipant s uid = true ∧
        ev.roomId = s.roomId) := by
  refine ⟨rfl, ?_, ?_⟩
  · intro s hs hact hpart
    show _ ∈ List.map _ (List.filter _ _)
    exact List.mem_map.mpr ⟨s, List.mem_filter.mpr ⟨hs, by simp [hpart, hact]⟩, rfl⟩
  · intro ev hev
    obtain ⟨s, hs, rfl⟩ := List.mem_map.mp hev
    have hf := List.mem_filter.mp hs
    have hact : s.status = SessionStatus.active := by
      have := hf.2
      simp at this
      exact this.2
    have hpart : isParticipant s uid = true := by
      have := hf.2
      simp at this
      exact this.1
    exact ⟨rfl, rfl, s, hf.1, hact, hpart, rfl⟩

/-- Witness for C6 at a concrete input: disconnecting user 100 leaves the
active session of `sessDB` as it was and emits the relay event to its
room. -/
theorem disconnect_preserves_sessions_witness :
    (socketDisconnect sessDB [] 100 "s").1.sessions = sessDB.sessions ∧
    ({ kind := "participantDisconnected", roomId := 77, fromUser := 100 } : Event) ∈
      (socketDisconnect sessDB [] 100 "s").2.2 :=
  ⟨(disconnect_preserves_sessions sessDB [] 100 "s").1,
   (disconnect_preserves_sessions sessDB [] 100 "s").2.1
     { id := 9, topic := 5, user1 := 100, user2 := 200, roomId := 77,
       status := SessionStatus.active, endTime := none }
     (by simp [sessDB]) rfl (by decide)⟩

/-- A participant's end call on a terminal session is rejected as already
ended with nothing changed. -/
lemma endSession_terminal (db : DB) (sid uid now : Nat) (s : Session)
    (h : db.sessions.find? (fun x => x.id == sid) = some s)
    (hpart : isParticipant s uid = true) (hterm : isTerminal s.status = true) :
    endSession db sid uid now = (EndResult.alreadyEnded, db) := by
  simp [endSession, h, hpart, hterm]

/-- A participant's cancel call on a terminal session is rejected the same
way. -/
lemma cancelSession_terminal (db : DB) (sid uid now : Nat) (s : Session)
    (h : db.sessions.find? (fun x => x.id == sid) = some s)
    (hpart : isParticipant s uid = true) (hterm : isTerminal s.status = true) :
    cancelSession db sid uid now = (EndResult.alreadyEnded, db) := by
  simp [cancelSession, h, hpart, hterm]

/-- Claim C5.  A participant's first end call on an active session marks it
completed and sets the termination time; after that — and likewise on any
session already `'completed'` or `'cancelled'` — a participant's end or
cancel call is rejected as 'Session already ended' and returns the state
entirely unchanged, so terminal states are never left. -/
theorem end_cancel_idempotent (db : DB) (sid uid uid2 now now2 : Nat) (s : Session)
    (h : db.sessions.find? (fun x => x.id == sid) = some s) :
    (s.status = SessionStatus.active → isParticipant s uid = true →
      (endSession db sid uid now).1 = EndResult.ended ∧
      (∀ s' ∈ (endSession db sid uid now).2.sessions, s'.id = sid →
        s'.status = SessionStatus.completed ∧ s'.endTime = some now) ∧
      (isParticipant s uid2 = true →
        endSession (endSession db sid uid now).2 sid uid2 now2 =
          (EndResult.alreadyEnded, (endSession db sid uid now).2) ∧
        cancelSession (endSession db sid uid now).2 sid uid2 now2 =
          (EndResult.alreadyEnded, (endSession db sid uid now).2))) ∧
    (isTerminal s.status = true → isParticipant s uid2 = true →
      endSession db sid uid2 now2 = (EndResult.alreadyEnded, db) ∧
      cancelSession db sid uid2 now2 = (EndResult.alreadyEnded, db)) := by
  constructor
  · intro hact hpart
    have hdb' : endSession db sid uid now =
        (EndResult.ended,
         { db with
           sessions := setSession db.sessions sid SessionStatus.completed now,
           users := incUser (incUser db.users s.user1) s.user2,
           topics := incTopic db.topics s.topic }) := by
      simp [endSession, h, hpart, hact, isTerminal]
    rw [hdb']
    refine ⟨rfl, ?_, ?_⟩
    · intro s' hs' hid
      obtain ⟨x, hx, rfl⟩ := List.mem_map.mp hs'
      by_cases hxid : x.id = sid
      · simp [hxid]
      · simp only [show (x.id == sid) = false by simp [hxid], Bool.false_eq_true,
          if_false] at hid ⊢
        exact absurd hid hxid
    · intro hpart2
      have hfind2 : (setSession db.sessions sid SessionStatus.completed now).find?
          (fun x => x.id == sid) =
          some { s with status := SessionStatus.completed, endTime := some now } := by
        rw [setSession_find?_same, h]
        rfl
      exact ⟨endSession_terminal _ sid uid2 now2 _ hfind2 hpart2 rfl,
             cancelSession_terminal _ sid uid2 now2 _ hfind2 hpart2 rfl⟩
  · intro hterm hpart2
    exact ⟨endSession_terminal db sid uid2 now2 s h hpart2 hterm,
           cancelSession_terminal db sid uid2 now2 s h hpart2 hterm⟩

/-- Witness for C5: on `sessDB`, user 100 ends session 9 successfully, and
user 200's subsequent end call is rejected as already ended without
changing the state. -/
theorem end_cancel_idempotent_witness :
    (endSession sessDB 9 100 123).1 = EndResult.ended ∧
    endSession (endSession sessDB 9 100 123).2 9 200 124 =
      (EndResult.alreadyEnded, (endSession sessDB 9 100 123).2) ∧
    cancelSession (endSession sessDB 9 100 123).2 9 200 124 =
      (EndResult.alreadyEnded, (endSession sessDB 9 100 123).2) := by
  have hmain := (end_cancel_idempotent sessDB 9 100 200 123 124
    { id := 9, topic := 5, user1 := 100, user2 := 200, roomId := 77,
      status := SessionStatus.active, endTime := none } rfl).1 rfl (by decide)
  exact ⟨hmain.1, (hmain.2.2 (by decide)).1, (hmain.2.2 (by decide)).2⟩

/-- Claim C10.  A successful end of an active session between two distinct
participants bumps each participant's `sessionsCompleted` and the topic's
`sessionsCount` by exactly one, and any later end call by a participant is
rejected as already ended with the state — counters included — unchanged,
so a session contributes at most one increment to each counter. -/
theorem end_increments_counters_once (db : DB) (sid uid now : Nat) (s : Session)
    (h : db.sessions.find? (fun x => x.id == sid) = some s)
    (hpart : isParticipant s uid = true) (hact : s.status = SessionStatus.active)
    (hdist : s.user1 ≠ s.user2) :
    (endSession db sid uid now).1 = EndResult.ended ∧
    userCompleted (endSession db sid uid now).2 s.user1 =
      (userCompleted db s.user1).map (· + 1) ∧
    userCompleted (endSession db sid uid now).2 s.user2 =
      (userCompleted db s.user2).map (· + 1) ∧
    topicSessions (endSession db sid uid now).2 s.topic =
      (topicSessions db s.topic).map (· + 1) ∧
    (∀ uid' now', isParticipant s uid' = true →
      endSession (endSession db sid uid now).2 sid uid' now' =
        (EndResult.alreadyEnded, (endSession db sid uid now).2)) := by
  have hdb' : endSession db sid uid now =
      (EndResult.ended,
       { db with
         sessions := setSession db.sessions sid SessionStatus.completed now,
         users := incUser (incUser db.users s.user1) s.user2,
         topics := incTopic db.topics s.topic }) := by
    simp [endSession, h, hpart, hact, isTerminal]
  rw [hdb']
  refine ⟨rfl, ?_, ?_, ?_, ?_⟩
  · show ((incUser (incUser db.users s.user1) s.user2).find? fun u =>
        u.id == s.user1).map (·.sessionsCompleted) = _
    rw [incUser_find?_ne _ _ _ hdist, incUser_find?_same]
    unfold userCompleted
    cases db.users.find? fun u => u.id == s.user1 <;> rfl
  · show ((incUser (incUser db.users s.user1) s.user2).find? fun u =>
        u.id == s.user2).map (·.sessionsCompleted) = _
    rw [incUser_find?_same, incUser_find?_ne _ _ _ (Ne.symm hdist)]
    unfold userCompleted
    cases db.users.find? fun u => u.id == s.user2 <;> rfl
  · show ((incTopic db.topics s.topic).find? fun t =>
        t.id == s.topic).map (·.sessionsCount) = _
    rw [incTopic_find?_same]
    unfold topicSessions
    cases db.topics.find? fun t => t.id == s.topic <;> rfl
  · intro uid' now' hpart'
    have hfind2 : (setSession db.sessions sid SessionStatus.completed now).find?
        (fun x => x.id == sid) =
        some { s with status := SessionStatus.completed, endTime := some now } := by
      rw [setSession_find?_same, h]
      rfl
    exact endSession_terminal _ sid uid' now' _ hfind2 hpart' rfl

/-- Witness for C10 on `sessDB`: both participants' counters and the topic
counter go up by one, once. -/
theorem end_increments_counters_once_witness :
    userCompleted (endSession sessDB 9 100 123).2 100 =
      (userCompleted sessDB 100).map (· + 1) ∧
    userCompleted (endSession sessDB 9 100 123).2 200 =
      (userCompleted sessDB 200).map (· + 1) ∧
    topicSessions (endSession sessDB 9 100 123).2 5 =
      (topicSessions sessDB 5).map (· + 1) ∧
    endSession (endSession sessDB 9 100 123).2 9 100 124 =
      (EndResult.alreadyEnded, (endSession sessDB 9 100 123).2) := by
  have hmain := end_increments_counters_once sessDB 9 100 123
    { id := 9, topic := 5, user1 := 100, user2 := 200, roomId := 77,
      status := SessionStatus.active, endTime := none } rfl (by decide) rfl (by decide)
  exact ⟨hmain.2.1, hmain.2.2.1, hmain.2.2.2.1, hmain.2.2.2.2 100 124 (by decide)⟩

/-- Claim C4.  For a valid active topic, a join by an identity that already
holds an active WaitingEntry for that topic is rejected with the
already-waiting conflict, and a join by an identity with a non-terminal
(waiting or active) session is rejected with the distinct active-session
conflict; in both cases the whole state is returned unchanged, so neither
a WaitingEntry nor a Session is created. -/
theorem join_conflict_rejected (db : DB) (uid tid : Nat) (t : TopicRec) (sock : String)
    (sid rid eid now : Nat)
    (ht : findTopic db tid = some t) (hact : t.isActive = true) :
    ((∃ e ∈ db.pool, e.user = uid ∧ e.topic = tid ∧ e.isActive = true) →
      matchingJoin db uid tid sock sid rid eid now =
        (JoinOutcome.rejected JoinReject.alreadyWaiting, db)) ∧
    ((∀ e ∈ db.pool, ¬(e.user = uid ∧ e.topic = tid ∧ e.isActive = true)) →
      (∃ s ∈ db.sessions, (s.user1 = uid ∨ s.user2 = uid) ∧ isNonTerminal s.status = true) →
      matchingJoin db uid tid sock sid rid eid now =
        (JoinOutcome.rejected JoinReject.activeSessionConflict, db)) := by
  constructor
  · rintro ⟨e, he, h1, h2, h3⟩
    have hsome : (db.pool.find? fun e => e.user == uid && e.topic == tid && e.isActive).isSome :=
      List.find?_isSome.mpr ⟨e, he, by simp [h1, h2, h3]⟩
    simp [matchingJoin, joinCheck, ht, hact, hsome]
  · rintro hno ⟨s, hs, hor, hnt⟩
    have hnone : (db.pool.find? fun e => e.user == uid && e.topic == tid && e.isActive)
        = none := by
      apply List.find?_eq_none.mpr
      intro e he hc
      simp only [Bool.and_eq_true, beq_iff_eq] at hc
      exact hno e he ⟨hc.1.1, hc.1.2, hc.2⟩
    have hsome : (db.sessions.find? fun x =>
        (x.user1 == uid || x.user2 == uid) && isNonTerminal x.status).isSome :=
      List.find?_isSome.mpr ⟨s, hs, by
        simp [hnt]
        rcases hor with h | h <;> simp [h]⟩
    simp [matchingJoin, joinCheck, ht, hact, hnone, hsome]

/-- Witness for C4 at concrete inputs: user 7 is turned away with the
already-waiting conflict when waiting on topic 5, and with the
active-session conflict when holding an active session; the state comes
back unchanged both times. -/
theorem join_conflict_rejected_witness :
    matchingJoin waitingConflictDB 7 5 "s2" 10 11 12 50 =
      (JoinOutcome.rejected JoinReject.alreadyWaiting, waitingConflictDB) ∧
    matchingJoin sessionConflictDB 7 5 "s2" 10 11 12 50 =
      (JoinOutcome.rejected JoinReject.activeSessionConflict, sessionConflictDB) :=
  ⟨(join_conflict_rejected waitingConflictDB 7 5 topic5 "s2" 10 11 12 50 rfl rfl).1
    ⟨{ id := 1, user := 7, topic := 5, joinedAt := 0, socketId := "s", isActive := true },
      by decide, rfl, rfl, rfl⟩,
   (join_conflict_rejected sessionConflictDB 7 5 topic5 "s2" 10 11 12 50 rfl rfl).2
    (fun e he => absurd he (List.not_mem_nil e))
    ⟨{ id := 1, topic := 5, user1 := 7, user2 := 8, roomId := 70,
       status := SessionStatus.active, endTime := none },
      by decide, Or.inl rfl, rfl⟩⟩

/-- The first entry `find?` returns in a pool sorted by enqueue time is a
minimizer of `joinedAt` among all matching entries. -/
lemma find?_min_joinedAt (l : List WaitingEntry) (p : WaitingEntry → Bool)
    (hs : l.Pairwise fun a b => a.joinedAt ≤ b.joinedAt) (e : WaitingEntry)
    (he : l.find? p = some e) :
    ∀ x ∈ l, p x = true → e.joinedAt ≤ x.joinedAt := by
  induction l with
  | nil => simp at he
  | cons a t ih =>
    rcases List.pairwise_cons.mp hs with ⟨ha, htail⟩
    by_cases hpa : p a = true
    · rw [List.find?_cons_of_pos _ hpa] at he
      obtain rfl : a = e := by injection he
      intro x hx _
      rcases List.mem_cons.mp hx with rfl | hx
      · exact Nat.le_refl _
      · exact ha x hx
    · rw [List.find?_cons_of_neg _ hpa] at he
      intro x hx hpx
      rcases List.mem_cons.mp hx with rfl | hx
      · exact absurd hpx hpa
      · exact ih htail he x hx hpx

/-- The enqueue commit keeps the pool sorted by `joinedAt` whenever the
clock is monotone (the new entry's `joinedAt` is no older than the pool's),
which is why the sortedness hypothesis below holds of every state the
handlers build. -/
lemma commitEnqueue_pool_sorted (db : DB) (uid tid : Nat) (sock : String) (eid now : Nat)
    (hs : db.pool.Pairwise fun a b => a.joinedAt ≤ b.joinedAt)
    (hnow : ∀ e ∈ db.pool, e.joinedAt ≤ now) :
    (commitEnqueue db uid tid sock eid now).pool.Pairwise
      fun a b => a.joinedAt ≤ b.joinedAt := by
  show (db.pool ++ [_]).Pairwise _
  rw [List.pairwise_append]
  refine ⟨hs, List.pairwise_singleton _ _, ?_⟩
  intro a ha b hb
  rcases List.mem_singleton.mp hb with rfl
  exact hnow a ha

/-- The match commit (a `deleteOne`, i.e. a filter) also preserves
sortedness. -/
lemma commitMatch_pool_sorted (db : DB) (uid tid : Nat) (partner : WaitingEntry)
    (sid rid : Nat) (hs : db.pool.Pairwise fun a b => a.joinedAt ≤ b.joinedAt) :
    (commitMatch db uid tid partner sid rid).pool.Pairwise
      fun a b => a.joinedAt ≤ b.joinedAt :=
  hs.filter _

/-- Claim C3.  When the join checks pass and the pool — kept in enqueue
order by the handlers — holds at least one active entry for the topic with
a different identity, the matcher returns `Matched` with the entry `find?`
selects, that entry is eligible and FIFO-oldest (its `joinedAt` is minimal
among all eligible entries), and it is removed: no entry with its id
survives in the resulting pool. -/
theorem join_selects_oldest (db : DB) (uid tid : Nat) (sock : String)
    (sid rid eid now : Nat)
    (hchk : joinCheck db uid tid = none)
    (hsorted : db.pool.Pairwise fun a b => a.joinedAt ≤ b.joinedAt)
    (e : WaitingEntry) (he : findPartner db uid tid = some e) :
    matchingJoin db uid tid sock sid rid eid now =
      (JoinOutcome.matched e.user sid, commitMatch db uid tid e sid rid) ∧
    e ∈ db.pool ∧ partnerPred uid tid e = true ∧
    (∀ x ∈ db.pool, partnerPred uid tid x = true → e.joinedAt ≤ x.joinedAt) ∧
    (∀ x ∈ (commitMatch db uid tid e sid rid).pool, x.id ≠ e.id) := by
  refine ⟨by simp [matchingJoin, hchk, he], List.mem_of_find?_eq_some he,
    List.find?_some he, find?_min_joinedAt _ _ hsorted e he, ?_⟩
  intro x hx
  have hmem : x ∈ db.pool.filter fun y => y.id != e.id := hx
  simpa using (List.mem_filter.mp hmem).2

/-- Witness for C3 on the two-waiter pool: user 200's join matches the
older waiter (user 100, enqueued at time 3) rather than the newer one
(user 101, enqueued at time 7). -/
theorem join_selects_oldest_witness :
    matchingJoin sortedPoolDB 200 5 "sB" 10 11 12 50 =
      (JoinOutcome.matched 100 10, commitMatch sortedPoolDB 200 5 entryOld 10 11) ∧
    partnerPred 200 5 entryNew = true ∧ entryOld.joinedAt ≤ entryNew.joinedAt :=
  ⟨(join_selects_oldest sortedPoolDB 200 5 "sB" 10 11 12 50 rfl (by decide)
      entryOld rfl).1,
   by decide,
   (join_selects_oldest sortedPoolDB 200 5 "sB" 10 11 12 50 rfl (by decide)
      entryOld rfl).2.2.2.1 entryNew (by decide) (by decide)⟩

/-- Claim C1.  On a state where topic `T` is valid and active, no active
WaitingEntry for `T` exists (so `A` finds no partner), `A` has no
non-terminal session, `B ≠ A` has no non-terminal session, and the fresh
entry id is really fresh, a join by `A` is Enqueued and the immediately
following join by `B` returns Matched with a newly created Session whose
participants are exactly `A` (as `user1`) and `B` (as `user2`) and whose
status is `'active'`; `A`'s WaitingEntry is removed again, leaving the pool
as it started and everything but the session list unchanged. -/
theorem join_pair_matched (db : DB) (A B T : Nat) (t : TopicRec)
    (sockA sockB : String) (sidA ridA eidA sidB ridB eidB nowA nowB : Nat)
    (ht : findTopic db T = some t) (hact : t.isActive = true)
    (hAB : B ≠ A)
    (hpool : ∀ e ∈ db.pool, e.topic = T → e.isActive = false)
    (hAsess : ∀ s ∈ db.sessions, s.user1 = A ∨ s.user2 = A → isNonTerminal s.status = false)
    (hBsess : ∀ s ∈ db.sessions, s.user1 = B ∨ s.user2 = B → isNonTerminal s.status = false)
    (hfresh : ∀ e ∈ db.pool, e.id ≠ eidA) :
    matchingJoin db A T sockA sidA ridA eidA nowA =
      (JoinOutcome.enqueued eidA, commitEnqueue db A T sockA eidA nowA) ∧
    matchingJoin (commitEnqueue db A T sockA eidA nowA) B T sockB sidB ridB eidB nowB =
      (JoinOutcome.matched A sidB,
       { db with sessions := db.sessions ++
           [{ id := sidB, topic := T, user1 := A, user2 := B, roomId := ridB,
              status := SessionStatus.active, endTime := none }] }) := by
  have hpoolA : (db.pool.find? fun e => e.user == A && e.topic == T && e.isActive)
      = none := by
    apply List.find?_eq_none.mpr
    intro e he hc
    simp only [Bool.and_eq_true, beq_iff_eq] at hc
    exact absurd hc.2 (by simp [hpool e he hc.1.2])
  have hsessA : (db.sessions.find? fun s =>
      (s.user1 == A || s.user2 == A) && isNonTerminal s.status) = none := by
    apply List.find?_eq_none.mpr
    intro s hs hc
    simp only [Bool.and_eq_true, Bool.or_eq_true, beq_iff_eq] at hc
    exact absurd hc.2 (by simp [hAsess s hs hc.1])
  have hchkA : joinCheck db A T = none := by
    simp [joinCheck, ht, hact, hpoolA, hsessA]
  have hpartA : findPartner db A T = none := by
    apply List.find?_eq_none.mpr
    intro e he hc
    simp only [partnerPred, Bool.and_eq_true, beq_iff_eq, bne_iff_ne] at hc
    exact absurd hc.2 (by simp [hpool e he hc.1.1])
  refine ⟨by simp [matchingJoin, hchkA, hpartA], ?_⟩
  have hpoolBchk : ((commitEnqueue db A T sockA eidA nowA).pool.find? fun e =>
      e.user == B && e.topic == T && e.isActive) = none := by
    show ((db.pool ++ [({ id := eidA, user := A, topic := T, joinedAt := nowA,
                          socketId := sockA, isActive := true } : WaitingEntry)]).find? fun e =>
      e.user == B && e.topic == T && e.isActive) = none
    apply List.find?_eq_none.mpr
    intro e he hc
    simp only [Bool.and_eq_true, beq_iff_eq] at hc
    rcases List.mem_append.mp he with he | he
    · exact absurd hc.2 (by simp [hpool e he hc.1.2])
    · rcases List.mem_singleton.mp he with rfl
      exact hAB hc.1.1.symm
  have hsessB : ((commitEnqueue db A T sockA eidA nowA).sessions.find? fun s =>
      (s.user1 == B || s.user2 == B) && isNonTerminal s.status) = none := by
    show (db.sessions.find? fun s =>
      (s.user1 == B || s.user2 == B) && isNonTerminal s.status) = none
    apply List.find?_eq_none.mpr
    intro s hs hc
    simp only [Bool.and_eq_true, Bool.or_eq_true, beq_iff_eq] at hc
    exact absurd hc.2 (by simp [hBsess s hs hc.1])
  have hchkB : joinCheck (commitEnqueue db A T sockA eidA nowA) B T = none := by
    have htB : findTopic (commitEnqueue db A T sockA eidA nowA) T = some t := ht
    simp [joinCheck, htB, hact, hpoolBchk, hsessB]
  have hpartB : findPartner (commitEnqueue db A T sockA eidA nowA) B T =
      some { id := eidA, user := A, topic := T, joinedAt := nowA, socketId := sockA,
             isActive := true } := by
    show ((db.pool ++ [_]).find? (partnerPred B T)) = _
    rw [List.find?_append]
    have h1 : db.pool.find? (partnerPred B T) = none := by
      apply List.find?_eq_none.mpr
      intro e he hc
      simp only [partnerPred, Bool.and_eq_true, beq_iff_eq, bne_iff_ne] at hc
      exact absurd hc.2 (by simp [hpool e he hc.1.1])
    rw [h1]
    have h2 : partnerPred B T { id := eidA, user := A, topic := T, joinedAt := nowA,
                                socketId := sockA, isActive := true } = true := by
      simp [partnerPred, Ne.symm hAB]
    rw [List.find?_cons_of_pos _ h2]
    rfl
  have hpoolEq : ((db.pool ++ [({ id := eidA, user := A, topic := T, joinedAt := nowA,
                                  socketId := sockA, isActive := true } : WaitingEntry)]).filter
      fun e => e.id != eidA) = db.pool := by
    rw [List.filter_append]
    have h1 : (db.pool.filter fun e => e.id != eidA) = db.pool :=
      List.filter_eq_self.mpr fun e he => by simp [hfresh e he]
    have h2 : (([{ id := eidA, user := A, topic := T, joinedAt := nowA,
                   socketId := sockA, isActive := true }] :
        List WaitingEntry).filter fun e => e.id != eidA) = [] := by
      simp
    rw [h1, h2, List.append_nil]
  simp only [matchingJoin, hchkB, hpartB]
  simp [commitMatch, commitEnqueue, hpoolEq]


/-- Witness for C1 on the empty state with topic 5: user 100's join is
Enqueued, user 200's join is Matched with an active session {100, 200},
and the pool is empty again. -/
theorem join_pair_matched_witness :
    matchingJoin baseDB 100 5 "sA" 10 11 12 50 =
      (JoinOutcome.enqueued 12, commitEnqueue baseDB 100 5 "sA" 12 50) ∧
    matchingJoin (commitEnqueue baseDB 100 5 "sA" 12 50) 200 5 "sB" 13 14 15 60 =
      (JoinOutcome.matched 100 13,
       { baseDB with sessions := baseDB.sessions ++
           [{ id := 13, topic := 5, user1 := 100, user2 := 200, roomId := 14,
              status := SessionStatus.active, endTime := none }] }) :=
  join_pair_matched baseDB 100 200 5 topic5 "sA" "sB" 10 11 12 13 14 15 50 60 rfl rfl
    (by decide) (fun e he => absurd he (List.not_mem_nil e))
    (fun s hs => absurd hs (List.not_mem_nil s))
    (fun s hs => absurd hs (List.not_mem_nil s))
    (fun e he => absurd he (List.not_mem_nil e))

end TopicVideoLearning
